import Mathlib

/-!
Shallow embedding of the core models of the boxing repository:
`boxing/models/boxers_model.py` (boxer records, validated creation, weight
classification, stats updates over the persisted store) and
`boxing/models/ring_model.py` (the two-boxer ring and its fight algorithm).

Modelling conventions:
- Python `int` becomes `Int`, Python `float` attributes (reach, skill) become
  `Rat` since the code only ever adds, multiplies and divides them by constants;
  the fight probability uses `Real` because it applies `math.e ** (-delta)`.
- Python `ValueError` raise sites become an explicit error type whose
  constructors follow the error kinds the raise messages distinguish.
- The sqlite store behind `boxers_model.py` is modelled as an association list
  from boxer id to row; `UPDATE ... WHERE id = ?` updates every matching entry
  and `SELECT ... WHERE id = ?` returns the first.
- The external random source (`get_random`, which draws uniformly from [0,1))
  is modelled as a stream of real numbers that `fight` consumes from the front.
- Mutation of `RingModel.ring` becomes explicit state passing: each operation
  returns the ring state after the call, errors included.
-/

namespace Boxing

/-- Error kinds of the model, one constructor per kind of `ValueError` the
Python code raises (plus the random-source failure of the external collaborator
and the unpacking failure of `boxer_1, boxer_2 = self.get_boxers()` on a ring
of more than two boxers). -/
inductive BoxingError where
  | invalidAttribute (msg : String)
  | alreadyExists (msg : String)
  | notFound (msg : String)
  | full (msg : String)
  | insufficientParticipants (msg : String)
  | sourceUnavailable
  | unpackMismatch
  deriving DecidableEq, Repr

/-- The `Boxer` dataclass of `boxers_model.py`: id, name, weight, height,
reach, age, and the derived weight class (assigned by `__post_init__`). -/
structure Boxer where
  id : Int
  name : String
  weight : Int
  height : Int
  reach : Rat
  age : Int
  weight_class : String
  deriving DecidableEq, Repr

/-- One persisted row of the `boxers` table: base attributes plus the
`fights` and `wins` counters that `update_boxer_stats` mutates. -/
structure BoxerRow where
  name : String
  weight : Int
  height : Int
  reach : Rat
  age : Int
  fights : Nat
  wins : Nat
  deriving DecidableEq, Repr

/-- The persisted store, keyed by boxer id. -/
abbrev DB : Type := List (Int × BoxerRow)

/-- `SELECT ... FROM boxers WHERE id = ?` followed by `fetchone()`: the first
row with the given id, if any. -/
def dbLookup : DB → Int → Option BoxerRow
  | [], _ => none
  | (j, row) :: rest, i => if j = i then some row else dbLookup rest i

/-- `UPDATE boxers SET ... WHERE id = ?`: applies `f` to every row whose id
matches, leaving every other row untouched. -/
def dbUpdate : DB → Int → (BoxerRow → BoxerRow) → DB
  | [], _, _ => []
  | (j, row) :: rest, i, f =>
    if j = i then (j, f row) :: dbUpdate rest i f
    else (j, row) :: dbUpdate rest i f

/-- `SELECT 1 FROM boxers WHERE name = ?`: whether some row carries the name. -/
def dbHasName (db : DB) (name : String) : Bool :=
  db.any (fun p => p.2.name == name)

/-- Modelled from the spec: the sqlite layer behind `INSERT INTO boxers` is not
under `src/`; per the spec the repository assigns the id on insertion, so the
model hands out one larger than every id in use. -/
def nextId (db : DB) : Int :=
  1 + db.foldr (fun p m => max p.1 m) 0

/-- `get_weight_class` of `boxers_model.py`: highest-threshold-first boundary
checks at 203, 166, 133, 125, failing below 125. -/
def get_weight_class (weight : Int) : Except BoxingError String :=
  if weight ≥ 203 then .ok "HEAVYWEIGHT"
  else if weight ≥ 166 then .ok "MIDDLEWEIGHT"
  else if weight ≥ 133 then .ok "LIGHTWEIGHT"
  else if weight ≥ 125 then .ok "FEATHERWEIGHT"
  else .error (.invalidAttribute
    ("Invalid weight: " ++ toString weight ++ ". Weight must be at least 125."))

/-- `create_boxer` of `boxers_model.py`: validates weight, height, reach and
age in that order, raising at the first violated check; then rejects a
duplicate name; then inserts a fresh row (fights and wins start at 0, the
repository assigns the id). -/
def create_boxer (db : DB) (name : String) (weight height : Int) (reach : Rat)
    (age : Int) : Except BoxingError DB :=
  if weight < 125 then
    .error (.invalidAttribute
      ("Invalid weight: " ++ toString weight ++ ". Must be at least 125."))
  else if height ≤ 0 then
    .error (.invalidAttribute
      ("Invalid height: " ++ toString height ++ ". Must be greater than 0."))
  else if reach ≤ 0 then
    .error (.invalidAttribute
      ("Invalid reach: " ++ toString reach ++ ". Must be greater than 0."))
  else if ¬ (18 ≤ age ∧ age ≤ 40) then
    .error (.invalidAttribute
      ("Invalid age: " ++ toString age ++ ". Must be between 18 and 40."))
  else if dbHasName db name then
    .error (.alreadyExists ("Boxer with name " ++ name ++ " already exists"))
  else
    .ok (db ++ [(nextId db, ⟨name, weight, height, reach, age, 0, 0⟩)])

/-- `update_boxer_stats` of `boxers_model.py`: rejects any result other than
win or loss before touching the store; then fails if the id is absent; on win
increments fights and wins, on loss increments only fights. -/
def update_boxer_stats (db : DB) (boxer_id : Int) (result : String) :
    Except BoxingError DB :=
  if result ≠ "win" ∧ result ≠ "loss" then
    .error (.invalidAttribute
      ("Invalid result: " ++ result ++ ". Expected win or loss."))
  else
    match dbLookup db boxer_id with
    | none =>
      .error (.notFound ("Boxer with ID " ++ toString boxer_id ++ " not found."))
    | some _ =>
      if result = "win" then
        .ok (dbUpdate db boxer_id
          (fun row => { row with fights := row.fights + 1, wins := row.wins + 1 }))
      else
        .ok (dbUpdate db boxer_id (fun row => { row with fights := row.fights + 1 }))

/-- The `RingModel` state of `ring_model.py`: the list of boxers currently in
the ring, in entry order. -/
structure RingModel where
  ring : List Boxer
  deriving DecidableEq, Repr

/-- `RingModel.clear_ring`: returns immediately when the ring is already
empty, otherwise empties it; either way the resulting ring is empty. -/
def clear_ring (s : RingModel) : RingModel :=
  if s.ring.isEmpty then s else ⟨[]⟩

/-- `RingModel.enter_ring`: fails when the ring already holds two (or more)
boxers, otherwise appends the boxer. The Python `isinstance` guard is enforced
here by the type of the argument. -/
def enter_ring (s : RingModel) (b : Boxer) : Except BoxingError RingModel :=
  if s.ring.length ≥ 2 then
    .error (.full "Ring is full, cannot add more boxers.")
  else
    .ok ⟨s.ring ++ [b]⟩

/-- `RingModel.get_boxers`: the occupants in entry order. -/
def get_boxers (s : RingModel) : List Boxer :=
  s.ring

/-- `RingModel.get_fighting_skill`: `weight * len(name) + reach / 10 +
age_modifier`, with the age modifier -1 below 25, -2 above 35, 0 otherwise. -/
def get_fighting_skill (boxer : Boxer) : Rat :=
  ((boxer.weight : Rat) * (boxer.name.length : Rat)) + boxer.reach / 10 +
    (if boxer.age < 25 then (-1 : Rat) else if boxer.age > 35 then -2 else 0)

/-- The logistic transform `1 / (1 + math.e ** (-delta))` applied to the
absolute skill difference in `RingModel.fight`. -/
noncomputable def normalized_delta (delta : Rat) : Real :=
  1 / (1 + Real.exp (-(delta : Real)))

/-- The tail of `RingModel.fight` once winner and loser are chosen: record a
win for the winner, then a loss for the loser, then clear the ring and return
the name of the winner; an error from either stats update propagates and leaves the
ring as it was (the clear only happens after both updates succeed). -/
def settle (s : RingModel) (db : DB) (rest : List Real) (winner loser : Boxer) :
    Except BoxingError String × RingModel × DB × List Real :=
  match update_boxer_stats db winner.id "win" with
  | .error e => (.error e, s, db, rest)
  | .ok db1 =>
    match update_boxer_stats db1 loser.id "loss" with
    | .error e => (.error e, s, db1, rest)
    | .ok db2 => (.ok winner.name, clear_ring s, db2, rest)

/-- `RingModel.fight`: fails when fewer than two boxers are in the ring;
otherwise unpacks the two occupants in entry order, computes their skills and
the logistic win probability of the absolute skill gap, draws the next random
number, lets boxer 1 win exactly when the draw is below the probability, and
settles the outcome. Returns the result of the call together with the ring state,
the store and the random stream after the call. -/
noncomputable def fight (s : RingModel) (db : DB) (rs : List Real) :
    Except BoxingError String × RingModel × DB × List Real :=
  if s.ring.length < 2 then
    (.error (.insufficientParticipants "There must be two boxers to start a fight."),
      s, db, rs)
  else
    match s.ring with
    | [boxer_1, boxer_2] =>
      match rs with
      | [] => (.error .sourceUnavailable, s, db, rs)
      | random_number :: rest =>
        if random_number <
            normalized_delta |get_fighting_skill boxer_1 - get_fighting_skill boxer_2| then
          settle s db rest boxer_1 boxer_2
        else
          settle s db rest boxer_2 boxer_1
    | _ => (.error .unpackMismatch, s, db, rs)

/-- Ring states reachable from the freshly initialised (empty) ring by any
sequence of successful enters, fight calls (successful or not, against any
store and random stream) and clears. -/
inductive Reachable : RingModel → Prop where
  | init : Reachable ⟨[]⟩
  | enter (s s' : RingModel) (b : Boxer) :
      Reachable s → enter_ring s b = .ok s' → Reachable s'
  | fight_step (s : RingModel) (db : DB) (rs : List Real) :
      Reachable s → Reachable (fight s db rs).2.1
  | clear (s : RingModel) : Reachable s → Reachable (clear_ring s)

/-! ## Helper lemmas -/

/-- Clearing any ring yields the empty ring. -/
theorem clear_ring_eq (s : RingModel) : clear_ring s = ⟨[]⟩ := by
  obtain ⟨r⟩ := s
  cases r <;> rfl

/-- A ring state is determined by its occupant list. -/
theorem ring_eq (s : RingModel) (l : List Boxer) (h : s.ring = l) : s = ⟨l⟩ := by
  rw [← h]

/-! ## Claim theorems -/

/-- C5: `get_weight_class` maps weights at least 203 to HEAVYWEIGHT, [166, 203)
to MIDDLEWEIGHT, [133, 166) to LIGHTWEIGHT, [125, 133) to FEATHERWEIGHT, and
fails with an invalid-attribute error below 125; in particular 124 fails, 125
is FEATHERWEIGHT, 202 is MIDDLEWEIGHT and 203 is HEAVYWEIGHT. -/
theorem weight_class_boundaries :
    (∀ w : Int,
      (203 ≤ w → get_weight_class w = .ok "HEAVYWEIGHT") ∧
      (166 ≤ w → w < 203 → get_weight_class w = .ok "MIDDLEWEIGHT") ∧
      (133 ≤ w → w < 166 → get_weight_class w = .ok "LIGHTWEIGHT") ∧
      (125 ≤ w → w < 133 → get_weight_class w = .ok "FEATHERWEIGHT") ∧
      (w < 125 → get_weight_class w = .error (.invalidAttribute
        ("Invalid weight: " ++ toString w ++ ". Weight must be at least 125.")))) ∧
    get_weight_class 124 = .error (.invalidAttribute
      "Invalid weight: 124. Weight must be at least 125.") ∧
    get_weight_class 125 = .ok "FEATHERWEIGHT" ∧
    get_weight_class 202 = .ok "MIDDLEWEIGHT" ∧
    get_weight_class 203 = .ok "HEAVYWEIGHT" := by
  refine ⟨fun w => ⟨?_, ?_, ?_, ?_, ?_⟩, by rfl, by rfl, by rfl, by rfl⟩
  · intro h1
    unfold get_weight_class
    rw [if_pos (by omega)]
  · intro h1 h2
    unfold get_weight_class
    rw [if_neg (by omega), if_pos (by omega)]
  · intro h1 h2
    unfold get_weight_class
    rw [if_neg (by omega), if_neg (by omega), if_pos (by omega)]
  · intro h1 h2
    unfold get_weight_class
    rw [if_neg (by omega), if_neg (by omega), if_neg (by omega), if_pos (by omega)]
  · intro h1
    unfold get_weight_class
    rw [if_neg (by omega), if_neg (by omega), if_neg (by omega), if_neg (by omega)]

/-- C5 witness: a weight in the lightweight band classifies as LIGHTWEIGHT. -/
theorem weight_class_boundaries_witness :
    get_weight_class 150 = .ok "LIGHTWEIGHT" :=
  ((weight_class_boundaries.1 150).2.2.1 (by decide) (by decide))

/-- C6: the fighting skill is the pure function
`weight * length(name) + reach / 10 + ageModifier` with modifier -1 below age
25, -2 above 35, 0 otherwise; with weight 180, a name of length 8, reach 75
and age 30 it is exactly 1447.5 = 2895/2. -/
theorem fighting_skill_formula :
    (∀ b : Boxer,
      get_fighting_skill b =
        (b.weight : Rat) * (b.name.length : Rat) + b.reach / 10 +
          (if b.age < 25 then (-1 : Rat) else if b.age > 35 then -2 else 0)) ∧
    get_fighting_skill ⟨7, "Boxer 12", 180, 70, 75, 30, "MIDDLEWEIGHT"⟩ = 2895 / 2 := by
  refine ⟨fun b => rfl, ?_⟩
  have hlen : ("Boxer 12").length = 8 := rfl
  unfold get_fighting_skill
  norm_num [hlen]

/-- C6 witness: the concrete evaluation of the skill formula. -/
theorem fighting_skill_formula_witness :
    get_fighting_skill ⟨7, "Boxer 12", 180, 70, 75, 30, "MIDDLEWEIGHT"⟩ = 2895 / 2 :=
  fighting_skill_formula.2

/-- C8: on a ring with fewer than two occupants, `fight` fails with the
insufficient-participants error and returns the ring, the store and the random
stream unchanged (no draw, no stats update). -/
theorem fight_insufficient (s : RingModel) (db : DB) (rs : List Real)
    (h : s.ring.length < 2) :
    fight s db rs =
      (.error (.insufficientParticipants "There must be two boxers to start a fight."),
        s, db, rs) := by
  unfold fight
  rw [if_pos h]

/-- C8 witness: a fight on the empty ring with a nonempty random stream fails
without consuming the stream or touching the store. -/
theorem fight_insufficient_witness :
    fight ⟨[]⟩ [] [(1 : Real) / 2] =
      (.error (.insufficientParticipants "There must be two boxers to start a fight."),
        ⟨[]⟩, [], [(1 : Real) / 2]) :=
  fight_insufficient ⟨[]⟩ [] [(1 : Real) / 2] (by decide)

/-- C9: `create_boxer` validates weight, height, reach and age in that order
and fails at the first violated check with an invalid-attribute error citing
the offending field and value; a validation failure returns no inserted
store. -/
theorem create_boxer_validation_order (db : DB) (name : String)
    (weight height : Int) (reach : Rat) (age : Int) :
    (weight < 125 → create_boxer db name weight height reach age =
      .error (.invalidAttribute
        ("Invalid weight: " ++ toString weight ++ ". Must be at least 125."))) ∧
    (125 ≤ weight → height ≤ 0 → create_boxer db name weight height reach age =
      .error (.invalidAttribute
        ("Invalid height: " ++ toString height ++ ". Must be greater than 0."))) ∧
    (125 ≤ weight → 0 < height → reach ≤ 0 →
      create_boxer db name weight height reach age =
        .error (.invalidAttribute
          ("Invalid reach: " ++ toString reach ++ ". Must be greater than 0."))) ∧
    (125 ≤ weight → 0 < height → 0 < reach → ¬ (18 ≤ age ∧ age ≤ 40) →
      create_boxer db name weight height reach age =
        .error (.invalidAttribute
          ("Invalid age: " ++ toString age ++ ". Must be between 18 and 40."))) := by
  refine ⟨?_, ?_, ?_, ?_⟩
  · intro h1
    unfold create_boxer
    rw [if_pos h1]
  · intro h1 h2
    unfold create_boxer
    rw [if_neg (by omega), if_pos h2]
  · intro h1 h2 h3
    unfold create_boxer
    rw [if_neg (by omega), if_neg (by omega), if_pos h3]
  · intro h1 h2 h3 h4
    unfold create_boxer
    rw [if_neg (by omega), if_neg (by omega), if_neg (not_le.mpr h3), if_pos h4]

/-- C9 witness: with weight, height, reach and age all invalid at once, the
first-checked field (weight) is the one reported. -/
theorem create_boxer_validation_order_witness :
    create_boxer [] "A" 120 (-1) (-5) 45 =
      .error (.invalidAttribute "Invalid weight: 120. Must be at least 125.") :=
  (create_boxer_validation_order [] "A" 120 (-1) (-5) 45).1 (by decide)

/-- C10: `update_boxer_stats` rejects any result other than win or loss with
an invalid-attribute error before any store access, so the same error is
produced whether or not the id exists and no record changes. -/
theorem update_stats_invalid_result (db : DB) (boxer_id : Int) (result : String)
    (hw : result ≠ "win") (hl : result ≠ "loss") :
    update_boxer_stats db boxer_id result =
      .error (.invalidAttribute
        ("Invalid result: " ++ result ++ ". Expected win or loss.")) := by
  unfold update_boxer_stats
  rw [if_pos ⟨hw, hl⟩]

/-- C10 witness: an invalid result on an id absent from the (empty) store
still reports the invalid result, not the missing id. -/
theorem update_stats_invalid_result_witness :
    dbLookup [] 1 = none ∧
    update_boxer_stats [] 1 "draw" =
      .error (.invalidAttribute "Invalid result: draw. Expected win or loss.") :=
  ⟨rfl, update_stats_invalid_result [] 1 "draw" (by decide) (by decide)⟩

/-- Updating at an id changes the row found at that id by exactly `f`. -/
theorem dbLookup_dbUpdate_self (db : DB) (i : Int) (f : BoxerRow → BoxerRow)
    (row : BoxerRow) (h : dbLookup db i = some row) :
    dbLookup (dbUpdate db i f) i = some (f row) := by
  induction db with
  | nil => simp [dbLookup] at h
  | cons p rest ih =>
    obtain ⟨j, r⟩ := p
    by_cases hj : j = i
    · subst hj
      simp [dbLookup] at h
      simp [dbUpdate, dbLookup, h]
    · simp [dbLookup, hj] at h
      simpa [dbUpdate, dbLookup, hj] using ih h

/-- Updating at an id leaves the row found at every other id unchanged. -/
theorem dbLookup_dbUpdate_ne (db : DB) (i j : Int) (f : BoxerRow → BoxerRow)
    (hne : j ≠ i) :
    dbLookup (dbUpdate db i f) j = dbLookup db j := by
  induction db with
  | nil => rfl
  | cons p rest ih =>
    obtain ⟨k, r⟩ := p
    by_cases hk : k = i
    · subst hk
      have hkj : k ≠ j := fun hkj => hne hkj.symm
      simp [dbUpdate, dbLookup, hkj, ih]
    · by_cases hkj : k = j
      · subst hkj
        simp [dbUpdate, dbLookup, hk]
      · simp [dbUpdate, dbLookup, hk, hkj, ih]

/-- Reducing a win update at a persisted id. -/
theorem update_stats_win_eq (db : DB) (boxer_id : Int) (row : BoxerRow)
    (h : dbLookup db boxer_id = some row) :
    update_boxer_stats db boxer_id "win" = .ok (dbUpdate db boxer_id
      (fun r => { r with fights := r.fights + 1, wins := r.wins + 1 })) := by
  unfold update_boxer_stats
  rw [if_neg (by simp), h]
  rfl

/-- Reducing a loss update at a persisted id. -/
theorem update_stats_loss_eq (db : DB) (boxer_id : Int) (row : BoxerRow)
    (h : dbLookup db boxer_id = some row) :
    update_boxer_stats db boxer_id "loss" = .ok (dbUpdate db boxer_id
      (fun r => { r with fights := r.fights + 1 })) := by
  unfold update_boxer_stats
  rw [if_neg (by simp), h]
  rfl

/-- C7: for a persisted id, a win update succeeds and increments the fights
and wins of that boxer by exactly 1, a loss update succeeds and increments
only the fights counter; in both cases every other attribute of the row and
the record of every other boxer is unchanged. -/
theorem update_stats_effects (db : DB) (boxer_id : Int) (row : BoxerRow)
    (h : dbLookup db boxer_id = some row) :
    (update_boxer_stats db boxer_id "win" = .ok (dbUpdate db boxer_id
      (fun r => { r with fights := r.fights + 1, wins := r.wins + 1 }))) ∧
    dbLookup (dbUpdate db boxer_id
        (fun r => { r with fights := r.fights + 1, wins := r.wins + 1 })) boxer_id =
      some { row with fights := row.fights + 1, wins := row.wins + 1 } ∧
    (∀ j, j ≠ boxer_id →
      dbLookup (dbUpdate db boxer_id
        (fun r => { r with fights := r.fights + 1, wins := r.wins + 1 })) j =
        dbLookup db j) ∧
    (update_boxer_stats db boxer_id "loss" = .ok (dbUpdate db boxer_id
      (fun r => { r with fights := r.fights + 1 }))) ∧
    dbLookup (dbUpdate db boxer_id (fun r => { r with fights := r.fights + 1 })) boxer_id =
      some { row with fights := row.fights + 1 } ∧
    (∀ j, j ≠ boxer_id →
      dbLookup (dbUpdate db boxer_id (fun r => { r with fights := r.fights + 1 })) j =
        dbLookup db j) := by
  exact ⟨update_stats_win_eq db boxer_id row h,
    dbLookup_dbUpdate_self db boxer_id _ row h,
    fun j hj => dbLookup_dbUpdate_ne db boxer_id j _ hj,
    update_stats_loss_eq db boxer_id row h,
    dbLookup_dbUpdate_self db boxer_id _ row h,
    fun j hj => dbLookup_dbUpdate_ne db boxer_id j _ hj⟩

/-- C7 witness: in a two-boxer store, a win for boxer 1 bumps fights and wins
of boxer 1 only, and a loss for boxer 2 bumps only fights of boxer 2. -/
theorem update_stats_effects_witness :
    update_boxer_stats
        [(1, ⟨"Alice", 180, 70, 72, 30, 3, 2⟩), (2, ⟨"Bo", 150, 68, 70, 28, 5, 1⟩)]
        1 "win" =
      .ok [(1, ⟨"Alice", 180, 70, 72, 30, 4, 3⟩), (2, ⟨"Bo", 150, 68, 70, 28, 5, 1⟩)] ∧
    dbLookup [(1, (⟨"Alice", 180, 70, 72, 30, 3, 2⟩ : BoxerRow)),
        (2, ⟨"Bo", 150, 68, 70, 28, 5, 1⟩)] 1 = some ⟨"Alice", 180, 70, 72, 30, 3, 2⟩ := by
  have h := (update_stats_effects
    [(1, ⟨"Alice", 180, 70, 72, 30, 3, 2⟩), (2, ⟨"Bo", 150, 68, 70, 28, 5, 1⟩)]
    1 ⟨"Alice", 180, 70, 72, 30, 3, 2⟩ rfl).1
  exact ⟨h, rfl⟩

/-- Settling a fight when both stats updates succeed: win recorded first,
loss second, ring cleared, name of the winner returned. -/
theorem settle_ok (s : RingModel) (db db1 db2 : DB) (rest : List Real)
    (winner loser : Boxer)
    (h1 : update_boxer_stats db winner.id "win" = .ok db1)
    (h2 : update_boxer_stats db1 loser.id "loss" = .ok db2) :
    settle s db rest winner loser = (.ok winner.name, clear_ring s, db2, rest) := by
  simp only [settle, h1, h2]

/-- Settling a fight when the stats update of the winner fails: the error is
returned and ring and store are untouched. -/
theorem settle_err_win (s : RingModel) (db : DB) (rest : List Real)
    (winner loser : Boxer) (e : BoxingError)
    (h1 : update_boxer_stats db winner.id "win" = .error e) :
    settle s db rest winner loser = (.error e, s, db, rest) := by
  simp only [settle, h1]

/-- Settling a fight when the stats update of the loser fails: the error is
returned, the ring is untouched, the update of the winner stands. -/
theorem settle_err_loss (s : RingModel) (db db1 : DB) (rest : List Real)
    (winner loser : Boxer) (e : BoxingError)
    (h1 : update_boxer_stats db winner.id "win" = .ok db1)
    (h2 : update_boxer_stats db1 loser.id "loss" = .error e) :
    settle s db rest winner loser = (.error e, s, db1, rest) := by
  simp only [settle, h1, h2]

/-- Reduction of `fight` on a two-boxer ring with an available random number:
boxer 1 wins exactly when the draw is below the logistic transform of the
absolute skill gap. -/
theorem fight_cons_two (b1 b2 : Boxer) (db : DB) (r : Real) (rest : List Real) :
    fight ⟨[b1, b2]⟩ db (r :: rest) =
      if r < normalized_delta |get_fighting_skill b1 - get_fighting_skill b2| then
        settle ⟨[b1, b2]⟩ db rest b1 b2
      else
        settle ⟨[b1, b2]⟩ db rest b2 b1 :=
  rfl

/-- C1: on a ring holding exactly boxers `b1, b2` in entry order, with draw
`r`, `fight` compares `r` against `p = 1 / (1 + e^(-|s1 - s2|))` for the
skills `s1, s2` of the two boxers; if `r < p` boxer 1 wins, otherwise boxer 2
wins; the win of the winner is recorded first and the loss of the loser
second, the ring is left empty and the name of the winner is returned. -/
theorem fight_two_boxers (s : RingModel) (b1 b2 : Boxer) (db dbw dbl : DB)
    (r : Real) (rest : List Real) (hring : s.ring = [b1, b2]) :
    (r < 1 / (1 + Real.exp (-((|get_fighting_skill b1 - get_fighting_skill b2| : Rat) : Real))) →
      update_boxer_stats db b1.id "win" = .ok dbw →
      update_boxer_stats dbw b2.id "loss" = .ok dbl →
      fight s db (r :: rest) = (.ok b1.name, ⟨[]⟩, dbl, rest)) ∧
    (¬ r < 1 / (1 + Real.exp (-((|get_fighting_skill b1 - get_fighting_skill b2| : Rat) : Real))) →
      update_boxer_stats db b2.id "win" = .ok dbw →
      update_boxer_stats dbw b1.id "loss" = .ok dbl →
      fight s db (r :: rest) = (.ok b2.name, ⟨[]⟩, dbl, rest)) := by
  obtain rfl := ring_eq s _ hring
  constructor
  · intro hlt h1 h2
    rw [fight_cons_two, if_pos (by simpa [normalized_delta] using hlt),
      settle_ok _ _ _ _ _ _ _ h1 h2]
    rfl
  · intro hge h1 h2
    rw [fight_cons_two, if_neg (by simpa [normalized_delta] using hge),
      settle_ok _ _ _ _ _ _ _ h1 h2]
    rfl

/-- C1 witness: with draw 0 (always below the logistic probability) boxer 1
wins, both stats updates are applied in order, the ring ends empty and the
name of the winner is returned. -/
theorem fight_two_boxers_witness :
    fight
        ⟨[⟨1, "Alice", 180, 70, 72, 30, "MIDDLEWEIGHT"⟩,
          ⟨2, "Bo", 150, 68, 70, 28, "LIGHTWEIGHT"⟩]⟩
        [(1, ⟨"Alice", 180, 70, 72, 30, 0, 0⟩), (2, ⟨"Bo", 150, 68, 70, 28, 0, 0⟩)]
        [(0 : Real)] =
      (.ok "Alice", ⟨[]⟩,
        [(1, ⟨"Alice", 180, 70, 72, 30, 1, 1⟩), (2, ⟨"Bo", 150, 68, 70, 28, 1, 0⟩)],
        []) :=
  (fight_two_boxers _ _ _ _
      [(1, ⟨"Alice", 180, 70, 72, 30, 1, 1⟩), (2, ⟨"Bo", 150, 68, 70, 28, 0, 0⟩)]
      [(1, ⟨"Alice", 180, 70, 72, 30, 1, 1⟩), (2, ⟨"Bo", 150, 68, 70, 28, 1, 0⟩)]
      0 [] rfl).1
    (by positivity)
    (update_stats_win_eq _ _ ⟨"Alice", 180, 70, 72, 30, 0, 0⟩ rfl)
    (update_stats_loss_eq _ _ ⟨"Bo", 150, 68, 70, 28, 0, 0⟩ rfl)

/-- C2: when a stats update fails during `fight` (at the update of either
the winner or the loser, in either branch), the error propagates as the
result and the ring still holds the same two boxers in entry order. -/
theorem fight_failure_preserves_ring (s : RingModel) (b1 b2 : Boxer) (db : DB)
    (r : Real) (rest : List Real) (hring : s.ring = [b1, b2]) :
    (r < normalized_delta |get_fighting_skill b1 - get_fighting_skill b2| →
      ∀ e, update_boxer_stats db b1.id "win" = .error e →
        fight s db (r :: rest) = (.error e, ⟨[b1, b2]⟩, db, rest)) ∧
    (r < normalized_delta |get_fighting_skill b1 - get_fighting_skill b2| →
      ∀ db1 e, update_boxer_stats db b1.id "win" = .ok db1 →
        update_boxer_stats db1 b2.id "loss" = .error e →
        fight s db (r :: rest) = (.error e, ⟨[b1, b2]⟩, db1, rest)) ∧
    (¬ r < normalized_delta |get_fighting_skill b1 - get_fighting_skill b2| →
      ∀ e, update_boxer_stats db b2.id "win" = .error e →
        fight s db (r :: rest) = (.error e, ⟨[b1, b2]⟩, db, rest)) ∧
    (¬ r < normalized_delta |get_fighting_skill b1 - get_fighting_skill b2| →
      ∀ db1 e, update_boxer_stats db b2.id "win" = .ok db1 →
        update_boxer_stats db1 b1.id "loss" = .error e →
        fight s db (r :: rest) = (.error e, ⟨[b1, b2]⟩, db1, rest)) := by
  obtain rfl := ring_eq s _ hring
  refine ⟨?_, ?_, ?_, ?_⟩
  · intro hlt e h1
    rw [fight_cons_two, if_pos hlt, settle_err_win _ _ _ _ _ _ h1]
  · intro hlt db1 e h1 h2
    rw [fight_cons_two, if_pos hlt, settle_err_loss _ _ _ _ _ _ _ h1 h2]
  · intro hge e h1
    rw [fight_cons_two, if_neg hge, settle_err_win _ _ _ _ _ _ h1]
  · intro hge db1 e h1 h2
    rw [fight_cons_two, if_neg hge, settle_err_loss _ _ _ _ _ _ _ h1 h2]

/-- C2 witness: against an empty store the stats update of the winner fails with a
not-found error, which propagates while the ring keeps both boxers. -/
theorem fight_failure_preserves_ring_witness :
    fight
        ⟨[⟨1, "Alice", 180, 70, 72, 30, "MIDDLEWEIGHT"⟩,
          ⟨2, "Bo", 150, 68, 70, 28, "LIGHTWEIGHT"⟩]⟩
        [] [(0 : Real)] =
      (.error (.notFound "Boxer with ID 1 not found."),
        ⟨[⟨1, "Alice", 180, 70, 72, 30, "MIDDLEWEIGHT"⟩,
          ⟨2, "Bo", 150, 68, 70, 28, "LIGHTWEIGHT"⟩]⟩, [], []) :=
  (fight_failure_preserves_ring _ _ _ [] 0 [] rfl).1
    (by unfold normalized_delta; positivity)
    (.notFound "Boxer with ID 1 not found.") rfl

/-- Inversion of a successful `enter_ring`: the ring had room and the boxer
was appended. -/
theorem enter_ring_ok (s s' : RingModel) (b : Boxer)
    (h : enter_ring s b = .ok s') : s.ring.length < 2 ∧ s' = ⟨s.ring ++ [b]⟩ := by
  unfold enter_ring at h
  split at h
  · exact absurd h (by simp)
  · next hlen => exact ⟨by omega, by injection h with h; exact h.symm⟩

/-- The ring component after `settle` is either the input ring (on a stats
failure) or empty (on success). -/
theorem settle_ring_cases (s : RingModel) (db : DB) (rest : List Real)
    (winner loser : Boxer) :
    (settle s db rest winner loser).2.1 = s ∨
      (settle s db rest winner loser).2.1 = ⟨[]⟩ := by
  unfold settle
  split
  · left; rfl
  · split
    · left; rfl
    · right; exact clear_ring_eq s

/-- The ring component after any `fight` call is either the input ring or
empty. -/
theorem fight_ring_cases (s : RingModel) (db : DB) (rs : List Real) :
    (fight s db rs).2.1 = s ∨ (fight s db rs).2.1 = ⟨[]⟩ := by
  unfold fight
  split
  · left; rfl
  · split
    · split
      · left; rfl
      · split
        · exact settle_ring_cases _ _ _ _ _
        · exact settle_ring_cases _ _ _ _ _
    · left; rfl

/-- Any two-boxer state is reachable by entering the two boxers in order. -/
theorem reachable_pair (b1 b2 : Boxer) : Reachable ⟨[b1, b2]⟩ :=
  .enter ⟨[b1]⟩ ⟨[b1, b2]⟩ b2 (.enter ⟨[]⟩ ⟨[b1]⟩ b1 .init rfl) rfl

/-- C3: every ring state reachable from the empty ring via enter, fight and
clear holds 0, 1 or 2 boxers, and on a reachable state already holding 2
boxers every enter fails with the ring-full error (so no operation ever takes
the ring above 2 occupants). -/
theorem ring_capacity_invariant (s : RingModel) (h : Reachable s) :
    (s.ring.length = 0 ∨ s.ring.length = 1 ∨ s.ring.length = 2) ∧
    (∀ b, s.ring.length = 2 →
      enter_ring s b = .error (.full "Ring is full, cannot add more boxers.")) := by
  have hlen : s.ring.length ≤ 2 := by
    induction h with
    | init => simp
    | enter s s' b hs hok ih =>
      obtain ⟨hlt, rfl⟩ := enter_ring_ok s s' b hok
      simp only [List.length_append, List.length_cons, List.length_nil]
      omega
    | fight_step s db rs hs ih =>
      rcases fight_ring_cases s db rs with hc | hc <;> rw [hc]
      · exact ih
      · simp
    | clear s hs ih =>
      rw [clear_ring_eq]
      simp
  refine ⟨by omega, fun b h2 => ?_⟩
  unfold enter_ring
  rw [if_pos (by omega)]

/-- C3 witness: on the reachable two-boxer state, entering a third boxer
fails with the ring-full error. -/
theorem ring_capacity_invariant_witness :
    enter_ring
        ⟨[⟨1, "Alice", 180, 70, 72, 30, "MIDDLEWEIGHT"⟩,
          ⟨2, "Bo", 150, 68, 70, 28, "LIGHTWEIGHT"⟩]⟩
        ⟨3, "Cara", 170, 69, 71, 26, "MIDDLEWEIGHT"⟩ =
      .error (.full "Ring is full, cannot add more boxers.") :=
  (ring_capacity_invariant _
      (reachable_pair ⟨1, "Alice", 180, 70, 72, 30, "MIDDLEWEIGHT"⟩
        ⟨2, "Bo", 150, 68, 70, 28, "LIGHTWEIGHT"⟩)).2
    ⟨3, "Cara", 170, 69, 71, 26, "MIDDLEWEIGHT"⟩ rfl

/-- C4 counterexample: the claim that reachable two-boxer states always hold
distinct boxers is false — entering the same boxer twice reaches a state
whose two slots hold the very same boxer. -/
theorem duplicate_occupancy_counterexample :
    ¬ (∀ s : RingModel, Reachable s → ∀ b1 b2 : Boxer,
        s.ring = [b1, b2] → b1 ≠ b2) := by
  intro h
  exact h ⟨[⟨1, "Bob", 150, 70, 72, 30, "LIGHTWEIGHT"⟩,
      ⟨1, "Bob", 150, 70, 72, 30, "LIGHTWEIGHT"⟩]⟩
    (reachable_pair _ _) _ _ rfl rfl

/-- C4 (amended): duplicate occupancy is not prevented — `enter_ring` makes
no duplicate check, so entering a boxer into a one-boxer ring already holding
that same boxer succeeds, and the state holding the same boxer in both slots
is reachable from the empty ring. -/
theorem duplicate_entry_not_prevented (b : Boxer) :
    enter_ring ⟨[b]⟩ b = .ok ⟨[b, b]⟩ ∧ Reachable ⟨[b, b]⟩ :=
  ⟨rfl, reachable_pair b b⟩

/-- C4 amended-claim witness: a concrete boxer entered twice occupies both
slots of a reachable state. -/
theorem duplicate_entry_not_prevented_witness :
    enter_ring ⟨[⟨1, "Bob", 150, 70, 72, 30, "LIGHTWEIGHT"⟩]⟩
        ⟨1, "Bob", 150, 70, 72, 30, "LIGHTWEIGHT"⟩ =
      .ok ⟨[⟨1, "Bob", 150, 70, 72, 30, "LIGHTWEIGHT"⟩,
        ⟨1, "Bob", 150, 70, 72, 30, "LIGHTWEIGHT"⟩]⟩ ∧
    Reachable ⟨[⟨1, "Bob", 150, 70, 72, 30, "LIGHTWEIGHT"⟩,
      ⟨1, "Bob", 150, 70, 72, 30, "LIGHTWEIGHT"⟩]⟩ :=
  duplicate_entry_not_prevented ⟨1, "Bob", 150, 70, 72, 30, "LIGHTWEIGHT"⟩

end Boxing
